import Mathlib

/-!
Shallow embedding of `app/YtManagerApp/providers/video_provider.py` from the
`ytsm` repository, together with a model (from the specification) of a
concrete provider backend, and proofs of the specification's claims.

The source file declares the abstract class `VideoProvider` (an `ABC`),
the enumeration `VideoProviderState`, and the exception types
`ProviderValidationError` and `InvalidURLError`.  All provider operations
are `@abstractmethod`s whose concrete implementations live outside the
supplied sources; where a claim is decided by such an implementation we
model it from the specification (definitions marked `Modelled from the
spec:`).
-/

namespace Ytsm

/-- Python strings, embedded as lists of characters. -/
abbrev Str := List Char

/-- Source: `class VideoProviderState(Enum)` with members
`NOT_CONFIGURED = 0`, `OK = 1`, `ERROR = 2`. -/
inductive VideoProviderState where
  | NOT_CONFIGURED
  | OK
  | ERROR
deriving DecidableEq, Repr

/-- Source: the `Enum` values of `VideoProviderState`
(`NOT_CONFIGURED = 0`, `OK = 1`, `ERROR = 2`). -/
def VideoProviderState.value : VideoProviderState → Nat
  | .NOT_CONFIGURED => 0
  | .OK => 1
  | .ERROR => 2

/-!
## Exception class hierarchy

The source declares `class ProviderValidationError(ValueError)` and
`class InvalidURLError(ValueError)`; Python's builtins give
`ValueError(Exception)` and `Exception(BaseException)`.  We embed the
classes, the direct-superclass relation written in the source, and
Python's `except`-clause matching (an `except C` handler catches a raised
exception of class `R` iff `C` appears in `R`'s method-resolution chain).
-/

/-- The exception classes relevant to the source file. -/
inductive ExcClass where
  | BaseException
  | Exception
  | ValueError
  | ProviderValidationError
  | InvalidURLError
deriving DecidableEq, Repr

/-- Direct superclass of each exception class, exactly as declared
(source: `ProviderValidationError(ValueError)`, `InvalidURLError(ValueError)`;
Python builtins for the rest). -/
def ExcClass.superclass : ExcClass → Option ExcClass
  | .BaseException => none
  | .Exception => some .BaseException
  | .ValueError => some .Exception
  | .ProviderValidationError => some .ValueError
  | .InvalidURLError => some .ValueError

/-- Walk the superclass chain, with fuel bounding the (finite) depth. -/
def ExcClass.ancestorsAux : Nat → Option ExcClass → List ExcClass
  | 0, _ => []
  | _, none => []
  | n + 1, some c => c :: ExcClass.ancestorsAux n c.superclass

/-- The method-resolution chain of a class: itself followed by all its
superclasses (the hierarchy has depth at most 5). -/
def ExcClass.ancestors (c : ExcClass) : List ExcClass :=
  ExcClass.ancestorsAux 5 (some c)

/-- Python `except handler` semantics: the handler class catches a raised
exception iff the handler appears in the raised class's resolution chain. -/
def ExcClass.catches (handler raised : ExcClass) : Bool :=
  handler ∈ raised.ancestors

/-- Source: only `ProviderValidationError.__init__` stores a
`field_messages` attribute; `InvalidURLError` has body `pass`. -/
def ExcClass.carriesFieldMessages : ExcClass → Bool
  | .ProviderValidationError => true
  | _ => false

/-!
## `ProviderValidationError` as a value

Source lines 16-26: the constructor takes `field_messages` (a dict from
field names to messages), forwards `*args` to `ValueError.__init__`
(which stores them as `args`), and stores `field_messages` on the
instance unchanged.
-/

/-- An instance of `ProviderValidationError`: the `field_messages` dict
and the `args` tuple held by the `ValueError` base. -/
structure ProviderValidationError where
  field_messages : List (String × String)
  args : List String
deriving DecidableEq, Repr

/-- Source: `ProviderValidationError.__init__` — calls
`super().__init__(*args)` then does `self.field_messages = field_messages`. -/
def ProviderValidationError.init (field_messages : List (String × String))
    (args : List String) : ProviderValidationError :=
  { field_messages := field_messages, args := args }

/-- Exception values that the provider operations can raise. -/
inductive PyError where
  | providerValidationError (e : ProviderValidationError)
  | invalidURLError (msg : Str)
deriving DecidableEq, Repr

/-- The class of a raised exception value. -/
def PyError.cls : PyError → ExcClass
  | .providerValidationError _ => .ProviderValidationError
  | .invalidURLError _ => .InvalidURLError

/-!
## `VideoProvider.__init__`

Source lines 54-55: `def __init__(self): self.state = VideoProviderState.NOT_CONFIGURED`.
The base class carries exactly the one instance attribute `state`.
-/

/-- The instance attributes set by the abstract base class. -/
structure VideoProviderBase where
  state : VideoProviderState
deriving DecidableEq, Repr

/-- Source: `VideoProvider.__init__` sets
`self.state = VideoProviderState.NOT_CONFIGURED`. -/
def VideoProvider.init : VideoProviderBase :=
  { state := VideoProviderState.NOT_CONFIGURED }

/-!
## A concrete provider, modelled from the spec

The provider operations (`configure`, `validate_configuration`,
`get_subscription_url`, `validate_subscription_url`, `fetch_subscription`,
`update_videos`, ...) are `@abstractmethod`s in the source; the concrete
backend implementing them is not among the supplied sources.  The
definitions below model such a backend from the specification (§4.1
operation contracts and the §8 example scenarios: subscription URLs of
the shape `https://example.com/channel/<id>`, and a settings schema
requiring an `api_key` field).
-/

/-- Modelled from the spec: a Subscription record — "external entity
representing a followed channel/feed", identified by its channel id and
carrying a display name. -/
structure Subscription where
  channel_id : Str
  name : String
deriving DecidableEq, Repr

/-- Modelled from the spec: a Video record — "one item belonging to a
subscription", with descriptive metadata (title, description) and
statistics (views, likes, dislikes). -/
structure Video where
  video_id : Str
  title : String
  description : String
  views : Nat
  likes : Nat
  dislikes : Nat
deriving DecidableEq, Repr

/-- Modelled from the spec: what the external platform knows about one
video — its current metadata and statistics. -/
structure VideoInfo where
  title : String
  description : String
  views : Nat
  likes : Nat
  dislikes : Nat
deriving DecidableEq, Repr

/-- Modelled from the spec: the state of the external platform — the
channels that exist (id ↦ display name) and the per-video data served
by the platform. -/
structure Platform where
  channels : List (Str × String)
  videos : List (Str × VideoInfo)
deriving DecidableEq, Repr

/-- Modelled from the spec (§8 example): the canonical base of a
subscription URL, `https://example.com/channel/`. -/
def channelUrlBase : Str := "https://example.com/channel/".toList

/-- A valid subscription URL: the canonical base followed by a non-empty
channel id (spec §8: `"https://example.com/channel/abc"` is well-formed). -/
def ValidSubscriptionUrl (url : Str) : Prop :=
  ∃ cid : Str, cid ≠ [] ∧ url = channelUrlBase ++ cid

/-- Modelled from the spec: the backend's URL-shape check — the URL must
begin with the canonical channel base and continue with a non-empty id.
Returns the channel id when the shape matches. -/
def parseChannelUrl (url : Str) : Option Str :=
  if url.take channelUrlBase.length = channelUrlBase ∧
      channelUrlBase.length < url.length then
    some (url.drop channelUrlBase.length)
  else
    none

/-- Modelled from the spec: the instance attributes of the concrete
example provider — the inherited `state` plus the configured api key. -/
structure ExampleProvider where
  state : VideoProviderState
  api_key : Option String
deriving DecidableEq, Repr

/-- Modelled from the spec: constructing a concrete provider runs the
base `VideoProvider.__init__` (which sets `state`) and leaves the
backend unconfigured. -/
def ExampleProvider.init : ExampleProvider :=
  { state := VideoProvider.init.state, api_key := none }

/-- Modelled from the spec: the provider's declared `settings` mapping —
"a named, ordered mapping from setting-key to a field descriptor"; the §8
example requires an `api_key` field. -/
def ExampleProvider.settings : List (String × String) :=
  [("api_key", "CharField")]

/-- Modelled from the spec: per-field validation of a submitted
configuration value against one declared settings key (§8 example:
a missing or empty `api_key` yields "This field is required."). -/
def fieldErrors (cfg : List (String × String)) (key : String) :
    List (String × String) :=
  match cfg.lookup key with
  | none => [(key, "This field is required.")]
  | some v => if v = "" then [(key, "This field is required.")] else []

/-- Modelled from the spec: the per-field messages collected while
validating a submitted configuration against the declared settings. -/
def ExampleProvider.configErrors (cfg : List (String × String)) :
    List (String × String) :=
  ExampleProvider.settings.flatMap (fun s => fieldErrors cfg s.fst)

/-- Modelled from the spec: `validate_configuration` — "pure check, no
side effects beyond observation"; collects per-field messages over the
declared settings keys and raises `ProviderValidationError` carrying
them when any field is invalid.  The provider instance is threaded
through and returned so that the (absence of) state mutation is
explicit. -/
def ExampleProvider.validate_configuration (p : ExampleProvider)
    (cfg : List (String × String)) :
    Except PyError Unit × ExampleProvider :=
  if ExampleProvider.configErrors cfg = [] then
    (Except.ok (), p)
  else
    (Except.error (.providerValidationError
      (ProviderValidationError.init (ExampleProvider.configErrors cfg) [])),
      p)

/-- Modelled from the spec: `configure` — validates the submitted
configuration first; on success applies the settings and the state
"becomes OK"; on a validation failure the error propagates and the
instance remains as it was. -/
def ExampleProvider.configure (p : ExampleProvider)
    (cfg : List (String × String)) :
    Except PyError Unit × ExampleProvider :=
  match p.validate_configuration cfg with
  | (Except.error e, p') => (Except.error e, p')
  | (Except.ok (), p') =>
    (Except.ok (),
      { p' with state := VideoProviderState.OK,
                api_key := cfg.lookup "api_key" })

/-- Modelled from the spec: `get_subscription_url` — "pure,
deterministic mapping from a Subscription to a canonical URL"; the
instance is threaded through unchanged. -/
def ExampleProvider.get_subscription_url (p : ExampleProvider)
    (sub : Subscription) : Str × ExampleProvider :=
  (channelUrlBase ++ sub.channel_id, p)

/-- Modelled from the spec: `validate_subscription_url` — "fails with
InvalidURLError when the URL does not match the backend's expected
subscription-URL shape; otherwise returns normally". -/
def ExampleProvider.validate_subscription_url (url : Str) :
    Except PyError Unit :=
  match parseChannelUrl url with
  | some _ => Except.ok ()
  | none => Except.error (.invalidURLError url)

/-- Modelled from the spec: `fetch_subscription` — "must perform only
minimal validation (shape of URL) before attempting resolution"; on a
malformed URL it raises `InvalidURLError` with no network call, and
otherwise queries the platform for the channel.  The second component
counts the network calls performed. -/
def ExampleProvider.fetch_subscription (net : Platform) (url : Str) :
    Except PyError Subscription × Nat :=
  match parseChannelUrl url with
  | none => (Except.error (.invalidURLError url), 0)
  | some cid =>
    match net.channels.lookup cid with
    | some nm => (Except.ok { channel_id := cid, name := nm }, 1)
    | none => (Except.error (.invalidURLError url), 1)

/-- Modelled from the spec: refresh one video from the platform —
metadata (title, description) only when `update_metadata`, statistics
(views, likes, dislikes) only when `update_statistics`; a video the
platform no longer knows is left untouched (skip-and-continue). -/
def updateVideo (net : Platform) (update_metadata update_statistics : Bool)
    (v : Video) : Video :=
  match net.videos.lookup v.video_id with
  | none => v
  | some info =>
    let v1 := if update_metadata then
        { v with title := info.title, description := info.description }
      else v
    if update_statistics then
      { v1 with views := info.views, likes := info.likes,
                dislikes := info.dislikes }
    else v1

/-- Modelled from the spec: `update_videos` — "for each video in the
input, selectively refreshes descriptive metadata and/or statistics",
mutating the videos; both flags default to false.  The provider instance
is threaded through and returned. -/
def ExampleProvider.update_videos (p : ExampleProvider) (net : Platform)
    (videos : List Video) (update_metadata update_statistics : Bool) :
    List Video × ExampleProvider :=
  (videos.map (updateVideo net update_metadata update_statistics), p)

/-!
## Helper lemmas
-/

/-- The URL-shape check recognises exactly the valid subscription URLs,
and on a valid URL it recovers the channel id. -/
lemma parseChannelUrl_append (cid : Str) (h : cid ≠ []) :
    parseChannelUrl (channelUrlBase ++ cid) = some cid := by
  unfold parseChannelUrl
  rw [if_pos, List.drop_left]
  refine ⟨List.take_left .., ?_⟩
  simp [List.length_append]
  exact List.length_pos.mpr h

/-- `parseChannelUrl` succeeds exactly on the valid subscription URLs. -/
lemma parseChannelUrl_isSome_iff (u : Str) :
    (parseChannelUrl u).isSome = true ↔ ValidSubscriptionUrl u := by
  constructor
  · intro h
    unfold parseChannelUrl at h
    split at h
    · rename_i hc
      refine ⟨u.drop channelUrlBase.length, ?_, ?_⟩
      · intro hnil
        have : u.length - channelUrlBase.length = 0 := by
          simpa [List.length_drop] using congrArg List.length hnil
        omega
      · conv_lhs => rw [← List.take_append_drop channelUrlBase.length u]
        rw [hc.1]
    · simp at h
  · rintro ⟨cid, hne, rfl⟩
    rw [parseChannelUrl_append cid hne]
    rfl

/-- Refreshing a video with both flags off returns it unchanged. -/
lemma updateVideo_id (net : Platform) (v : Video) :
    updateVideo net false false v = v := by
  unfold updateVideo
  cases net.videos.lookup v.video_id <;> simp

/-- Every message produced by `fieldErrors` is keyed by the settings key
it was produced for. -/
lemma fieldErrors_key (cfg : List (String × String)) (key : String) :
    ∀ x ∈ fieldErrors cfg key, x.fst = key := by
  intro x hx
  unfold fieldErrors at hx
  split at hx
  · simp at hx
    simp [hx]
  · split at hx
    · simp at hx
      simp [hx]
    · simp at hx

/-!
## Claims
-/

/-- C1: for every valid subscription URL `u`, `validate_subscription_url u`
returns normally, and `get_subscription_url` applied to the Subscription
returned by a successful `fetch_subscription u` gives back `u` exactly
(round-trip identity). -/
theorem c1_url_roundtrip (u : Str) (net : Platform)
    (h : ValidSubscriptionUrl u) :
    ExampleProvider.validate_subscription_url u = Except.ok () ∧
    ∀ (sub : Subscription) (n : Nat) (p : ExampleProvider),
      ExampleProvider.fetch_subscription net u = (Except.ok sub, n) →
      (p.get_subscription_url sub).1 = u := by
  obtain ⟨cid, hne, rfl⟩ := h
  have hp := parseChannelUrl_append cid hne
  constructor
  · unfold ExampleProvider.validate_subscription_url
    rw [hp]
  · intro sub n p hf
    unfold ExampleProvider.fetch_subscription at hf
    simp only [hp] at hf
    rcases hl : (net.channels.lookup cid) with _ | nm <;>
        simp only [hl, Prod.mk.injEq] at hf
    · exact Except.noConfusion hf.1
    · have hsub : Subscription.mk cid nm = sub := Except.ok.inj hf.1
      unfold ExampleProvider.get_subscription_url
      rw [← hsub]

/-- Witness for C1 at the spec's example URL
`https://example.com/channel/abc` and a platform knowing channel `abc`. -/
theorem c1_url_roundtrip_witness :
    ExampleProvider.validate_subscription_url
        "https://example.com/channel/abc".toList = Except.ok () ∧
    ∀ (sub : Subscription) (n : Nat) (p : ExampleProvider),
      ExampleProvider.fetch_subscription
          ⟨[("abc".toList, "Channel ABC")], []⟩
          "https://example.com/channel/abc".toList = (Except.ok sub, n) →
      (p.get_subscription_url sub).1 =
        "https://example.com/channel/abc".toList :=
  c1_url_roundtrip _ _ ⟨"abc".toList, by decide, by decide⟩

/-- C2: for every malformed URL `u` (one not of the valid subscription-URL
shape), `validate_subscription_url u` raises `InvalidURLError`, and
`fetch_subscription u` raises `InvalidURLError` too while performing zero
network calls. -/
theorem c2_malformed_url (u : Str) (net : Platform)
    (h : ¬ ValidSubscriptionUrl u) :
    ExampleProvider.validate_subscription_url u =
      Except.error (PyError.invalidURLError u) ∧
    ExampleProvider.fetch_subscription net u =
      (Except.error (PyError.invalidURLError u), 0) := by
  have hp : parseChannelUrl u = none := by
    rcases hq : parseChannelUrl u with _ | cid
    · rfl
    · exact absurd ((parseChannelUrl_isSome_iff u).mp (by rw [hq]; rfl)) h
  constructor
  · unfold ExampleProvider.validate_subscription_url
    rw [hp]
  · unfold ExampleProvider.fetch_subscription
    rw [hp]

/-- Witness for C2 at the spec's example malformed URL `"not a url"`. -/
theorem c2_malformed_url_witness :
    ExampleProvider.validate_subscription_url "not a url".toList =
      Except.error (PyError.invalidURLError "not a url".toList) ∧
    ExampleProvider.fetch_subscription ⟨[], []⟩ "not a url".toList =
      (Except.error (PyError.invalidURLError "not a url".toList), 0) :=
  c2_malformed_url _ _ (fun hv =>
    absurd ((parseChannelUrl_isSome_iff "not a url".toList).mpr hv)
      (by decide))

/-- C3: `update_videos` with `update_metadata = false` and
`update_statistics = false` (the declared defaults) is a no-op: every
video is returned unchanged and the provider instance is unchanged. -/
theorem c3_update_videos_noop (p : ExampleProvider) (net : Platform)
    (videos : List Video) :
    p.update_videos net videos false false = (videos, p) := by
  unfold ExampleProvider.update_videos
  rw [Prod.mk.injEq]
  refine ⟨?_, rfl⟩
  induction videos with
  | nil => rfl
  | cons v vs ih => simp [List.map_cons, updateVideo_id, ih]

/-- C4: whenever `validate_configuration` raises a
`ProviderValidationError`, the `field_messages` it carries are non-empty
and every key in them is one of the provider's declared `settings` keys. -/
theorem c4_validation_error_keys (p : ExampleProvider)
    (cfg : List (String × String)) (e : ProviderValidationError)
    (h : (p.validate_configuration cfg).1 =
      Except.error (PyError.providerValidationError e)) :
    e.field_messages ≠ [] ∧
    ∀ k ∈ e.field_messages.map Prod.fst,
      k ∈ ExampleProvider.settings.map Prod.fst := by
  unfold ExampleProvider.validate_configuration at h
  split at h
  · exact Except.noConfusion h
  · rename_i hne
    have h' : ProviderValidationError.init
        (ExampleProvider.configErrors cfg) [] = e := by
      have := Except.error.inj h
      exact PyError.providerValidationError.inj this
    subst h'
    refine ⟨hne, ?_⟩
    intro k hk
    simp only [ProviderValidationError.init, ExampleProvider.configErrors,
      List.mem_map] at hk
    obtain ⟨x, hx, rfl⟩ := hk
    simp only [List.mem_flatMap] at hx
    obtain ⟨s, hs, hxs⟩ := hx
    rw [fieldErrors_key cfg s.fst x hxs]
    exact List.mem_map.mpr ⟨s, hs, rfl⟩

/-- Witness for C4: the spec's example — an empty configuration on the
provider whose settings require an api key. -/
theorem c4_validation_error_keys_witness :
    (⟨[("api_key", "This field is required.")], []⟩ :
        ProviderValidationError).field_messages ≠ [] ∧
    ∀ k ∈ (⟨[("api_key", "This field is required.")], []⟩ :
        ProviderValidationError).field_messages.map Prod.fst,
      k ∈ ExampleProvider.settings.map Prod.fst :=
  c4_validation_error_keys ExampleProvider.init [] _ rfl

/-- C5: a freshly constructed provider instance has state
`NOT_CONFIGURED`: the base `VideoProvider.__init__` sets it, and the
concrete provider's construction (which runs the base initialiser)
therefore starts there too. -/
theorem c5_initial_state :
    VideoProvider.init.state = VideoProviderState.NOT_CONFIGURED ∧
    ExampleProvider.init.state = VideoProviderState.NOT_CONFIGURED :=
  ⟨rfl, rfl⟩

/-- C6: whenever `configure` returns normally, the resulting provider
instance's state is `OK`. -/
theorem c6_configure_sets_ok (p p' : ExampleProvider)
    (cfg : List (String × String))
    (h : p.configure cfg = (Except.ok (), p')) :
    p'.state = VideoProviderState.OK := by
  unfold ExampleProvider.configure at h
  rcases hv : p.validate_configuration cfg with ⟨res, q⟩
  rw [hv] at h
  cases res with
  | error e => exact Except.noConfusion (congrArg Prod.fst h)
  | ok u =>
    cases u
    have h2 : ExampleProvider.mk VideoProviderState.OK
        (cfg.lookup "api_key") = p' :=
      congrArg Prod.snd h
    rw [← h2]

/-- Witness for C6: configuring a fresh provider with an api key
succeeds and the resulting state is `OK`. -/
theorem c6_configure_sets_ok_witness :
    (⟨VideoProviderState.OK, some "k"⟩ : ExampleProvider).state =
      VideoProviderState.OK :=
  c6_configure_sets_ok ExampleProvider.init _ [("api_key", "k")] rfl

/-- C7: `validate_configuration` leaves the provider instance unchanged,
whether it returns normally or raises. -/
theorem c7_validate_configuration_frame (p : ExampleProvider)
    (cfg : List (String × String)) :
    (p.validate_configuration cfg).2 = p := by
  unfold ExampleProvider.validate_configuration
  split <;> rfl

/-- C8: `get_subscription_url` is pure and deterministic — equal
Subscription arguments on the same provider yield equal URL strings, and
the provider instance is unchanged by either call. -/
theorem c8_get_subscription_url_pure (p : ExampleProvider)
    (s1 s2 : Subscription) (h : s1 = s2) :
    (p.get_subscription_url s1).1 = (p.get_subscription_url s2).1 ∧
    (p.get_subscription_url s1).2 = p ∧
    (p.get_subscription_url s2).2 = p := by
  subst h
  exact ⟨rfl, rfl, rfl⟩

/-- Witness for C8 at a concrete provider and subscription. -/
theorem c8_get_subscription_url_pure_witness :
    (ExampleProvider.init.get_subscription_url ⟨"abc".toList, "A"⟩).1 =
      (ExampleProvider.init.get_subscription_url ⟨"abc".toList, "A"⟩).1 ∧
    (ExampleProvider.init.get_subscription_url ⟨"abc".toList, "A"⟩).2 =
      ExampleProvider.init ∧
    (ExampleProvider.init.get_subscription_url ⟨"abc".toList, "A"⟩).2 =
      ExampleProvider.init :=
  c8_get_subscription_url_pure ExampleProvider.init _ _ rfl

/-- C9: the `ProviderValidationError` constructor stores the
`field_messages` mapping unchanged on the instance. -/
theorem c9_field_messages_stored (d : List (String × String))
    (args : List String) :
    (ProviderValidationError.init d args).field_messages = d :=
  rfl

/-- C10: `ProviderValidationError` and `InvalidURLError` are both caught
by an `except ValueError` handler, yet are distinct classes, and only
`ProviderValidationError` carries a `field_messages` payload. -/
theorem c10_error_taxonomy :
    ExcClass.catches ExcClass.ValueError ExcClass.ProviderValidationError
        = true ∧
    ExcClass.catches ExcClass.ValueError ExcClass.InvalidURLError = true ∧
    ExcClass.ProviderValidationError ≠ ExcClass.InvalidURLError ∧
    ExcClass.carriesFieldMessages ExcClass.ProviderValidationError = true ∧
    ExcClass.carriesFieldMessages ExcClass.InvalidURLError = false := by
  decide

end Ytsm
